import Mathlib

/-!
Verification of the physics-sandbox repository (two variants:
`src/script.js`, the spawn-sandbox, and the unnamed launch-variant file).

The JavaScript state is embedded shallowly:
* numbers are idealized as `ℚ` (spawn sandbox) or `ℝ` (launch variant,
  whose `launch` operation uses `Math.cos` / `Math.sin` / `Math.sqrt`);
* the mutable scene / world / registry globals become an explicit
  `SimState` record threaded through each operation;
* object identity (JS references) is modelled by numeric ids drawn from a
  counter, so aliasing between `world.bodies`, the scene and the
  `objectsToUpdate` registry is by id;
* `addEventListener('collide', playHitSound)` is modelled as membership of
  the body's id in a `collideListeners` set.
-/

/-- A 3-component vector, the embedding of `THREE.Vector3` / `CANNON.Vec3`. -/
structure Vec3 (α : Type) where
  x : α
  y : α
  z : α
deriving DecidableEq

/-- An orientation, as the code constructs it: either the default identity
quaternion or one built by `setFromAxisAngle(axis, angle)`.  The angle is
stored as its multiple of π (`halfTurns`), since every angle in the source
is a rational multiple of `Math.PI`. -/
inductive Orient (α : Type) where
  | identity : Orient α
  | axisAngle (axis : Vec3 α) (halfTurns : α) : Orient α
deriving DecidableEq

namespace Script

/-- Geometry handles created by the spawn sandbox (`THREE.SphereGeometry(1,20,20)`,
`THREE.BoxGeometry(1,1,1)`, `THREE.CylinderGeometry(r,r,h,32)`). -/
inductive GeometryKind where
  | sphereGeom (radius : ℚ) (wSeg hSeg : ℕ)
  | boxGeom (w h d : ℚ)
  | cylinderGeom (rTop rBot height : ℚ) (radialSeg : ℕ)
deriving DecidableEq

/-- The render-facing visual proxy (`THREE.Mesh`): geometry, scale,
transform, shadow flag, tagged with an id standing for its JS reference. -/
structure Mesh where
  id : ℕ
  geom : GeometryKind
  scale : Vec3 ℚ
  position : Vec3 ℚ
  orientation : Orient ℚ
  castShadow : Bool
deriving DecidableEq

/-- Collision shapes (`CANNON.Sphere` / `CANNON.Box` (half extents) /
`CANNON.Cylinder` / `CANNON.Plane`). -/
inductive Shape where
  | sphere (radius : ℚ)
  | box (halfExtents : Vec3 ℚ)
  | cylinder (rTop rBot height : ℚ) (seg : ℕ)
  | plane
deriving DecidableEq

/-- A rigid body (`CANNON.Body`), tagged with an id standing for its JS
reference. -/
structure Body where
  id : ℕ
  mass : ℚ
  position : Vec3 ℚ
  velocity : Vec3 ℚ
  angularVelocity : Vec3 ℚ
  shape : Option Shape
  orientation : Orient ℚ
  hasDefaultMaterial : Bool
deriving DecidableEq

/-- An entry of the `objectsToUpdate` registry: the pair of (mesh, body)
references, by id. -/
structure TrackedPair where
  meshId : ℕ
  bodyId : ℕ
deriving DecidableEq

/-- The whole mutable state of `script.js`: the reference counter, the
scene's meshes, the world's bodies, which bodies have the `playHitSound`
collide listener attached, the `objectsToUpdate` registry, and the total
simulated time advanced by `world.step`. -/
structure SimState where
  nextId : ℕ
  scene : List Mesh
  worldBodies : List Body
  collideListeners : List ℕ
  objectsToUpdate : List TrackedPair
  simTime : ℚ
deriving DecidableEq

/-- The static floor body (`floorBody`): mass 0, plane shape, rotated by
`setFromAxisAngle((-1,0,0), Math.PI * 0.5)`. -/
def floorBody : Body :=
  { id := 0, mass := 0, position := ⟨0, 0, 0⟩, velocity := ⟨0, 0, 0⟩,
    angularVelocity := ⟨0, 0, 0⟩, shape := some .plane,
    orientation := .axisAngle ⟨-1, 0, 0⟩ (1/2), hasDefaultMaterial := false }

/-- The state right after start-up: floor body in the world, empty registry. -/
def initState : SimState :=
  { nextId := 1, scene := [], worldBodies := [floorBody],
    collideListeners := [], objectsToUpdate := [], simTime := 0 }

/-- The mesh built by `createSphere`: shared unit-sphere geometry scaled by
`radius`, positioned by `mesh.position.copy(position)`. -/
def sphereMeshOf (id : ℕ) (radius : ℚ) (p : Vec3 ℚ) : Mesh :=
  { id := id, geom := .sphereGeom 1 20 20, scale := ⟨radius, radius, radius⟩,
    position := p, orientation := .identity, castShadow := true }

/-- The body built by `createSphere`: mass 1, sphere shape of the requested
radius, default material; its position is first (0,3,0) from the
constructor, then overwritten by `body.position.copy(position)`. -/
def sphereBodyOf (id : ℕ) (radius : ℚ) (p : Vec3 ℚ) : Body :=
  { id := id, mass := 1, position := p, velocity := ⟨0, 0, 0⟩,
    angularVelocity := ⟨0, 0, 0⟩, shape := some (.sphere radius),
    orientation := .identity, hasDefaultMaterial := true }

/-- `createSphere(radius, position)`: add the mesh to the scene, build the
body, attach the collide listener, add the body to the world, push the pair
onto `objectsToUpdate`.  The second component of the result is the caller's
`position` object after the call (it is not mutated here). -/
def createSphere (radius : ℚ) (p : Vec3 ℚ) (s : SimState) : SimState × Vec3 ℚ :=
  ({ s with
      nextId := s.nextId + 2,
      scene := s.scene ++ [sphereMeshOf s.nextId radius p],
      worldBodies := s.worldBodies ++ [sphereBodyOf (s.nextId + 1) radius p],
      collideListeners := s.collideListeners ++ [s.nextId + 1],
      objectsToUpdate := s.objectsToUpdate ++ [⟨s.nextId, s.nextId + 1⟩] },
   p)

/-- The mesh built by `createBox`: shared unit-box geometry scaled by
(width, height, depth). -/
def boxMeshOf (id : ℕ) (w h d : ℚ) (p : Vec3 ℚ) : Mesh :=
  { id := id, geom := .boxGeom 1 1 1, scale := ⟨w, h, d⟩,
    position := p, orientation := .identity, castShadow := true }

/-- The body built by `createBox`: mass 1, box shape with half extents
`(width * 0.5, height * 0.5, depth * 0.5)`, position overwritten by
`body.position.copy(position)`. -/
def boxBodyOf (id : ℕ) (w h d : ℚ) (p : Vec3 ℚ) : Body :=
  { id := id, mass := 1, position := p, velocity := ⟨0, 0, 0⟩,
    angularVelocity := ⟨0, 0, 0⟩,
    shape := some (.box ⟨w * (1/2), h * (1/2), d * (1/2)⟩),
    orientation := .identity, hasDefaultMaterial := true }

/-- `createBox(width, height, depth, position)`: mesh into scene, body with
collide listener into world, pair onto `objectsToUpdate`; the caller's
`position` object is returned unchanged. -/
def createBox (w h d : ℚ) (p : Vec3 ℚ) (s : SimState) : SimState × Vec3 ℚ :=
  ({ s with
      nextId := s.nextId + 2,
      scene := s.scene ++ [boxMeshOf s.nextId w h d p],
      worldBodies := s.worldBodies ++ [boxBodyOf (s.nextId + 1) w h d p],
      collideListeners := s.collideListeners ++ [s.nextId + 1],
      objectsToUpdate := s.objectsToUpdate ++ [⟨s.nextId, s.nextId + 1⟩] },
   p)

/-- The mesh built by `createCylinder`, from the already adjusted radius and
height and the already mutated position. -/
def cylinderMeshOf (id : ℕ) (adjRadius adjHeight : ℚ) (p : Vec3 ℚ) : Mesh :=
  { id := id, geom := .cylinderGeom adjRadius adjRadius adjHeight 32,
    scale := ⟨1, 1, 1⟩, position := p, orientation := .identity,
    castShadow := true }

/-- The body built by `createCylinder`: mass 1, cylinder shape from the
adjusted dimensions, quaternion set from axis (1,0,0) and angle π/2. -/
def cylinderBodyOf (id : ℕ) (adjRadius adjHeight : ℚ) (p : Vec3 ℚ) : Body :=
  { id := id, mass := 1, position := p, velocity := ⟨0, 0, 0⟩,
    angularVelocity := ⟨0, 0, 0⟩,
    shape := some (.cylinder adjRadius adjRadius adjHeight 32),
    orientation := .axisAngle ⟨1, 0, 0⟩ (1/2), hasDefaultMaterial := true }

/-- `createCylinder(radius, height, position)`: shrinks the dimensions
(`adjustedRadius = radius * 0.2`, `adjustedHeight = height * 0.5`), then
MUTATES the caller's position with `position.y += adjustedHeight / 2`,
places mesh and body at that mutated position, and pushes the pair.  No
collide listener is attached.  The second component is the caller's
`position` object after the call (mutated). -/
def createCylinder (radius height : ℚ) (p : Vec3 ℚ) (s : SimState) :
    SimState × Vec3 ℚ :=
  let adjustedRadius := radius * (1/5)
  let adjustedHeight := height * (1/2)
  let p2 : Vec3 ℚ := { p with y := p.y + adjustedHeight / 2 }
  ({ s with
      nextId := s.nextId + 2,
      scene := s.scene ++ [cylinderMeshOf s.nextId adjustedRadius adjustedHeight p2],
      worldBodies := s.worldBodies ++ [cylinderBodyOf (s.nextId + 1) adjustedRadius adjustedHeight p2],
      objectsToUpdate := s.objectsToUpdate ++ [⟨s.nextId, s.nextId + 1⟩] },
   p2)

/-- One iteration of the `debugObject.reset` loop body, for one tracked
pair: `removeEventListener('collide', playHitSound)`, `world.removeBody`,
`scene.remove(mesh)`. -/
def removeOne (s : SimState) (pr : TrackedPair) : SimState :=
  { s with
      collideListeners := s.collideListeners.filter (fun i => i != pr.bodyId),
      worldBodies := s.worldBodies.filter (fun b => b.id != pr.bodyId),
      scene := s.scene.filter (fun m => m.id != pr.meshId) }

/-- `debugObject.reset()`: run the removal loop over every tracked pair,
then `objectsToUpdate.splice(0, objectsToUpdate.length)`. -/
def reset (s : SimState) : SimState :=
  let s' := s.objectsToUpdate.foldl removeOne s
  { s' with objectsToUpdate := [] }

/-- The position of the most recently added world body, if any. -/
def lastBodyPos (s : SimState) : Option (Vec3 ℚ) :=
  s.worldBodies.getLast?.map Body.position

/-- The position of the most recently added scene mesh, if any. -/
def lastMeshPos (s : SimState) : Option (Vec3 ℚ) :=
  s.scene.getLast?.map Mesh.position

/-- The state of the `hitSound` `Audio` element: volume, playback time, and
how many times `play()` has been invoked. -/
structure SoundState where
  volume : ℚ
  currentTime : ℚ
  playCount : ℕ
deriving DecidableEq

/-- `playHitSound(collision)`: with `impactStrength` the impact velocity
along the contact normal and `rand` the value returned by `Math.random()`,
if the strength exceeds 1.5 set `volume = rand`, rewind `currentTime` to 0
and `play()`; otherwise do nothing. -/
def playHitSound (impactStrength rand : ℚ) (snd : SoundState) : SoundState :=
  if 3/2 < impactStrength then
    { volume := rand, currentTime := 0, playCount := snd.playCount + 1 }
  else
    snd

end Script

/-- Modelled from the spec: the sub-step count of `CANNON.World.step`, which
is an external dependency not contained in this repository.  Per §4.1 the
call "advances simulation time by `elapsedDelta` seconds using internal
fixed sub-steps of `fixedDelta`, capped at `maxSubSteps` sub-steps per
call": the number of whole fixed sub-steps that fit into the elapsed delta,
capped at `maxSubSteps`. -/
def numSubSteps {α : Type} [LinearOrderedField α] [FloorRing α]
    (fixedDelta elapsedDelta : α) (maxSubSteps : ℕ) : ℕ :=
  if fixedDelta ≤ 0 then 0
  else min maxSubSteps (Int.toNat ⌊elapsedDelta / fixedDelta⌋)

namespace Script

/-- The world gravity set at startup: `world.gravity.set(0, -9.82, 0)`. -/
def gravity : Vec3 ℚ := ⟨0, -(982/100), 0⟩

/-- Modelled from the spec: one fixed-size integration sub-step of
`CANNON.World.step` (external dependency), per §4.1: it "mutates every
registered body's position/orientation/velocity" under the configured
gravity; a body of mass 0 is static and never moves (§8). -/
def integrateBody (dt : ℚ) (b : Body) : Body :=
  if b.mass = 0 then b
  else
    let v : Vec3 ℚ := ⟨b.velocity.x + dt * gravity.x,
                       b.velocity.y + dt * gravity.y,
                       b.velocity.z + dt * gravity.z⟩
    { b with
        velocity := v,
        position := ⟨b.position.x + dt * v.x,
                     b.position.y + dt * v.y,
                     b.position.z + dt * v.z⟩ }

/-- Modelled from the spec: `world.step(fixedDelta, elapsedDelta,
maxSubSteps)` (external dependency), per §4.1: run the capped number of
fixed-size sub-steps over every registered body and advance simulated time
by that many sub-steps of `fixedDelta` — never by the raw `elapsedDelta`. -/
def worldStep (fixedDelta elapsedDelta : ℚ) (maxSubSteps : ℕ)
    (s : SimState) : SimState :=
  let n := numSubSteps fixedDelta elapsedDelta maxSubSteps
  { s with
      worldBodies := s.worldBodies.map ((integrateBody fixedDelta)^[n]),
      simTime := s.simTime + n * fixedDelta }

/-- The pose-copy loop of `tick`: for every tracked pair,
`object.mesh.position.copy(object.body.position)` and likewise for the
quaternion.  The mesh and body references are resolved by id. -/
def copyPoses (s : SimState) : SimState :=
  { s with
      scene := s.scene.map (fun m =>
        match s.objectsToUpdate.find? (fun pr => pr.meshId == m.id) with
        | none => m
        | some pr =>
          match s.worldBodies.find? (fun b => b.id == pr.bodyId) with
          | none => m
          | some b => { m with position := b.position,
                               orientation := b.orientation }) }

/-- One frame of the animation loop of `script.js`, given the wall-clock
`deltaTime` computed from the clock: `world.step(1 / 60, deltaTime, 3)`,
then copy every tracked body's pose onto its mesh. -/
def tick (deltaTime : ℚ) (s : SimState) : SimState :=
  copyPoses (worldStep (1/60) deltaTime 3 s)

end Script

namespace Launch

/-- The launch-variant ball body (`ballBody`): the only dynamic body of that
variant.  Orientation is carried along for the pose copy in `tick`. -/
structure BallBody where
  mass : ℝ
  position : Vec3 ℝ
  velocity : Vec3 ℝ
  angularVelocity : Vec3 ℝ
  orientation : Orient ℝ

/-- The GUI settings of the launch variant: angle (degrees), launch
velocity, mass, launch height, and the air-resistance toggle. -/
structure Settings where
  angle : ℝ
  velocity : ℝ
  mass : ℝ
  launchHeight : ℝ
  airResistance : Bool

/-- The launch-variant state: the ball body, its mesh's copied pose, and
the simulated time advanced by `world.step`.  The ground body has mass 0
and is static, so it is not tracked. -/
structure State where
  ball : BallBody
  ballMeshPos : Vec3 ℝ
  ballMeshOrient : Orient ℝ
  simTime : ℝ

/-- `ballBody` as initialized: mass 1, positioned at (-7, 1.25, 0). -/
noncomputable def initialBall : BallBody :=
  { mass := 1, position := ⟨-7, 5/4, 0⟩, velocity := ⟨0, 0, 0⟩,
    angularVelocity := ⟨0, 0, 0⟩, orientation := .identity }

/-- `settings.reset()`: zero the velocity and angular velocity and move the
ball back to `(-7, settings.launchHeight, 0)`. -/
noncomputable def resetBall (set : Settings) (b : BallBody) : BallBody :=
  { b with
      velocity := ⟨0, 0, 0⟩,
      angularVelocity := ⟨0, 0, 0⟩,
      position := ⟨-7, set.launchHeight, 0⟩ }

/-- `settings.launch()`: set the ball's mass from the settings, recompute
mass properties, then set its velocity from the launch angle (converted to
radians) and the mass-adjusted speed
`adjustedSpeed = speed * (1 / Math.sqrt(settings.mass))`. -/
noncomputable def launch (set : Settings) (b : BallBody) : BallBody :=
  let angleInRadians := set.angle * Real.pi / 180
  let speed := set.velocity
  let adjustedSpeed := speed * (1 / Real.sqrt set.mass)
  { b with
      mass := set.mass,
      velocity := ⟨adjustedSpeed * Real.cos angleInRadians,
                   adjustedSpeed * Real.sin angleInRadians,
                   0⟩ }

/-- The world gravity of the launch variant: `world.gravity.set(0, -9.82, 0)`. -/
noncomputable def gravity : Vec3 ℝ := ⟨0, -(982/100), 0⟩

/-- Modelled from the spec: one fixed-size integration sub-step of
`CANNON.World.step` (external dependency) for the launch variant, per §4.1:
gravity integration of the dynamic ball; a mass-0 body would be static. -/
noncomputable def integrateBall (dt : ℝ) (b : BallBody) : BallBody :=
  if b.mass = 0 then b
  else
    let v : Vec3 ℝ := ⟨b.velocity.x + dt * gravity.x,
                       b.velocity.y + dt * gravity.y,
                       b.velocity.z + dt * gravity.z⟩
    { b with
        velocity := v,
        position := ⟨b.position.x + dt * v.x,
                     b.position.y + dt * v.y,
                     b.position.z + dt * v.z⟩ }

/-- One frame of the launch variant's animation loop, given the wall-clock
`deltaTime`: `world.step(1 / 80, deltaTime, 3)` (sub-step count and time
advance modelled from the spec as in `numSubSteps`), then the pose copy
`object.mesh.position.copy(object.body.position)` /
`object.mesh.quaternion.copy(object.body.quaternion)`. -/
noncomputable def tick (deltaTime : ℝ) (st : State) : State :=
  let n := numSubSteps ((1 : ℝ)/80) deltaTime 3
  let ball := (integrateBall ((1 : ℝ)/80))^[n] st.ball
  { ball := ball,
    ballMeshPos := ball.position,
    ballMeshOrient := ball.orientation,
    simTime := st.simTime + n * (1/80) }

/-- The external stimuli the launch variant reacts to: an animation frame
with its wall-clock delta, the GUI Launch button, the GUI Reset button. -/
inductive Event where
  | tickEv (delta : ℝ)
  | launchEv
  | resetEv

/-- Dispatch of one event against the current settings. -/
noncomputable def applyEvent (set : Settings) (st : State) (e : Event) : State :=
  match e with
  | .tickEv d => tick d st
  | .launchEv => { st with ball := launch set st.ball }
  | .resetEv => { st with ball := resetBall set st.ball }

/-- A whole run of the launch variant: fold the event stream over the
state, under fixed settings. -/
noncomputable def run (set : Settings) (evs : List Event) (st : State) : State :=
  evs.foldl (applyEvent set) st

end Launch

/-! Helper lemmas. -/

lemma numSubSteps_le {α : Type} [LinearOrderedField α] [FloorRing α]
    (dt h : α) (m : ℕ) : numSubSteps dt h m ≤ m := by
  unfold numSubSteps
  split
  · exact Nat.zero_le m
  · exact min_le_left m _

lemma foldl_removeOne_subsets (l : List Script.TrackedPair) (s : Script.SimState) :
    (l.foldl Script.removeOne s).worldBodies ⊆ s.worldBodies ∧
    (l.foldl Script.removeOne s).collideListeners ⊆ s.collideListeners ∧
    (l.foldl Script.removeOne s).scene ⊆ s.scene := by
  induction l generalizing s with
  | nil => exact ⟨fun _ h => h, fun _ h => h, fun _ h => h⟩
  | cons q l ih =>
    simp only [List.foldl_cons]
    obtain ⟨h1, h2, h3⟩ := ih (Script.removeOne s q)
    refine ⟨fun b hb => ?_, fun i hi => ?_, fun m hm => ?_⟩
    · exact List.mem_of_mem_filter (h1 hb)
    · exact List.mem_of_mem_filter (h2 hi)
    · exact List.mem_of_mem_filter (h3 hm)

lemma foldl_removeOne_kills (l : List Script.TrackedPair) (s : Script.SimState)
    (pr : Script.TrackedPair) (hpr : pr ∈ l) :
    (∀ b ∈ (l.foldl Script.removeOne s).worldBodies, b.id ≠ pr.bodyId) ∧
    (∀ i ∈ (l.foldl Script.removeOne s).collideListeners, i ≠ pr.bodyId) ∧
    (∀ m ∈ (l.foldl Script.removeOne s).scene, m.id ≠ pr.meshId) := by
  induction l generalizing s with
  | nil => cases hpr
  | cons q l ih =>
    simp only [List.foldl_cons]
    rcases List.mem_cons.mp hpr with h | h
    · subst h
      obtain ⟨h1, h2, h3⟩ := foldl_removeOne_subsets l (Script.removeOne s pr)
      refine ⟨fun b hb => ?_, fun i hi => ?_, fun m hm => ?_⟩
      · have hb' := h1 hb
        simp only [Script.removeOne, List.mem_filter, bne_iff_ne, ne_eq] at hb'
        exact hb'.2
      · have hi' := h2 hi
        simp only [Script.removeOne, List.mem_filter, bne_iff_ne, ne_eq] at hi'
        exact hi'.2
      · have hm' := h3 hm
        simp only [Script.removeOne, List.mem_filter, bne_iff_ne, ne_eq] at hm'
        exact hm'.2
    · exact ih (Script.removeOne s q) h

lemma applyEvent_ignores_air (set : Launch.Settings) (b : Bool)
    (st : Launch.State) (e : Launch.Event) :
    Launch.applyEvent { set with airResistance := b } st e
      = Launch.applyEvent set st e := by
  cases e <;> rfl

/-! Claim theorems. -/

/-- C1: no matter how large the elapsed wall-clock delta, one frame of
either variant's loop advances the simulation by at most 3 fixed-size
sub-steps (of 1/60 s resp. 1/80 s), each body being integrated only by the
fixed sub-step size, never directly by the variable frame delta. -/
theorem c1_substep_cap (delta : ℚ) (s : Script.SimState)
    (d2 : ℝ) (t : Launch.State) :
    (∃ k : ℕ, k ≤ 3 ∧
      (Script.tick delta s).simTime = s.simTime + k * (1/60) ∧
      (Script.tick delta s).worldBodies
        = s.worldBodies.map ((Script.integrateBody (1/60))^[k])) ∧
    (∃ j : ℕ, j ≤ 3 ∧
      (Launch.tick d2 t).simTime = t.simTime + j * (1/80) ∧
      (Launch.tick d2 t).ball = (Launch.integrateBall (1/80))^[j] t.ball) := by
  constructor
  · exact ⟨numSubSteps (1/60 : ℚ) delta 3, numSubSteps_le _ _ _, rfl, rfl⟩
  · exact ⟨numSubSteps ((1 : ℝ)/80) d2 3, numSubSteps_le _ _ _, rfl, rfl⟩

/-- C2 counterexample: a sphere spawn with radius -1 (a non-positive
dimension) is not rejected — it adds a mesh to the scene, a body to the
world, and appends a TrackedPair, refuting the claimed `InvalidShapeParams`
rejection with no partial object. -/
theorem c2_counterexample :
    (Script.createSphere (-1) ⟨0, 3, 0⟩ Script.initState).1.scene.length = 1 ∧
    (Script.createSphere (-1) ⟨0, 3, 0⟩ Script.initState).1.worldBodies.length = 2 ∧
    (Script.createSphere (-1) ⟨0, 3, 0⟩ Script.initState).1.objectsToUpdate
      ≠ Script.initState.objectsToUpdate := by
  refine ⟨rfl, rfl, ?_⟩
  simp [Script.createSphere, Script.initState]

/-- C2 amended: the spawn operations perform no validation at all — a
sphere spawn with non-positive radius and a box spawn with a non-positive
dimension still add one mesh to the scene, one body to the world, and
append one TrackedPair, exactly like valid spawns; no
`InvalidShapeParams` failure path exists. -/
theorem c2_no_validation (r w h d : ℚ) (p : Vec3 ℚ) (s : Script.SimState)
    (hr : r ≤ 0) (hbox : w ≤ 0 ∨ h ≤ 0 ∨ d ≤ 0) :
    ((Script.createSphere r p s).1.scene.length = s.scene.length + 1 ∧
     (Script.createSphere r p s).1.worldBodies.length = s.worldBodies.length + 1 ∧
     (Script.createSphere r p s).1.objectsToUpdate.length
       = s.objectsToUpdate.length + 1) ∧
    ((Script.createBox w h d p s).1.scene.length = s.scene.length + 1 ∧
     (Script.createBox w h d p s).1.worldBodies.length = s.worldBodies.length + 1 ∧
     (Script.createBox w h d p s).1.objectsToUpdate.length
       = s.objectsToUpdate.length + 1) := by
  refine ⟨⟨?_, ?_, ?_⟩, ⟨?_, ?_, ?_⟩⟩ <;>
    simp [Script.createSphere, Script.createBox]

/-- C2 witness: the amended theorem applied at radius -1 / box width -1. -/
theorem c2_no_validation_witness :
    ((-1 : ℚ) ≤ 0 ∧ ((-1 : ℚ) ≤ 0 ∨ (1 : ℚ) ≤ 0 ∨ (1 : ℚ) ≤ 0)) ∧
    (Script.createSphere (-1) ⟨0, 3, 0⟩ Script.initState).1.objectsToUpdate.length
      = Script.initState.objectsToUpdate.length + 1 ∧
    (Script.createBox (-1) 1 1 ⟨0, 3, 0⟩ Script.initState).1.objectsToUpdate.length
      = Script.initState.objectsToUpdate.length + 1 := by
  have hmain := c2_no_validation (-1) (-1) 1 1 ⟨0, 3, 0⟩ Script.initState
    (by norm_num) (Or.inl (by norm_num))
  exact ⟨⟨by norm_num, Or.inl (by norm_num)⟩, hmain.1.2.2, hmain.2.2.2⟩

/-- C3 counterexample: a cylinder spawn adds a new body (id 2) to the
world but registers no collide listener on it, refuting the claim that
every spawn registers a collision listener forwarding to the audio
trigger. -/
theorem c3_counterexample :
    (Script.createCylinder 1 1 ⟨0, 3, 0⟩ Script.initState).1.worldBodies.map Script.Body.id
      = [0, 2] ∧
    2 ∉ (Script.createCylinder 1 1 ⟨0, 3, 0⟩ Script.initState).1.collideListeners := by
  refine ⟨rfl, ?_⟩
  simp [Script.createCylinder, Script.initState]

/-- C3 amended: sphere and box spawns register the `playHitSound` collide
listener on the newly created body (the body with id `s.nextId + 1`, the
last body added to the world); cylinder spawns register no listener and
leave the listener set unchanged. -/
theorem c3_listener_coverage (r w h d cr ch : ℚ) (p : Vec3 ℚ) (s : Script.SimState) :
    ((Script.createSphere r p s).1.collideListeners
        = s.collideListeners ++ [s.nextId + 1] ∧
      (Script.createSphere r p s).1.worldBodies.getLast?.map Script.Body.id
        = some (s.nextId + 1)) ∧
    ((Script.createBox w h d p s).1.collideListeners
        = s.collideListeners ++ [s.nextId + 1] ∧
      (Script.createBox w h d p s).1.worldBodies.getLast?.map Script.Body.id
        = some (s.nextId + 1)) ∧
    (Script.createCylinder cr ch p s).1.collideListeners = s.collideListeners := by
  refine ⟨⟨rfl, ?_⟩, ⟨rfl, ?_⟩, rfl⟩ <;>
    simp [Script.createSphere, Script.createBox, Script.sphereBodyOf, Script.boxBodyOf]

/-- C4 counterexample: a cylinder spawn with height 2 at position
(0, 0, 0) places the body at y = 1/2, not at y = height/2 = 1, refuting
the claimed offset of half the requested height. -/
theorem c4_counterexample :
    Script.lastBodyPos (Script.createCylinder 1 2 ⟨0, 0, 0⟩ Script.initState).1
      = some ⟨0, 1/2, 0⟩ ∧
    ((1 : ℚ)/2) ≠ (0 : ℚ) + 2/2 := by
  constructor
  · simp only [Script.lastBodyPos, Script.createCylinder, Script.cylinderBodyOf,
      List.getLast?_concat, Option.map_some', Option.some.injEq, Vec3.mk.injEq]
    norm_num
  · norm_num

/-- C4 amended: a cylinder spawn with requested height `h` raises both the
body and the mesh by `h/4` above the requested position — that is, by half
of the cylinder's adjusted height `h * 0.5`, not by half the requested
height. -/
theorem c4_cylinder_offset (r h : ℚ) (p : Vec3 ℚ) (s : Script.SimState) :
    Script.lastBodyPos (Script.createCylinder r h p s).1
      = some ⟨p.x, p.y + h/4, p.z⟩ ∧
    Script.lastMeshPos (Script.createCylinder r h p s).1
      = some ⟨p.x, p.y + h/4, p.z⟩ := by
  have harith : p.y + h * (1/2) / 2 = p.y + h/4 := by ring
  constructor <;>
  · simp only [Script.lastBodyPos, Script.lastMeshPos, Script.createCylinder,
      Script.cylinderBodyOf, Script.cylinderMeshOf, List.getLast?_concat,
      Option.map_some', Option.some.injEq, harith]

/-- C5: the audio trigger plays the one-shot sound exactly when the impact
velocity exceeds 1.5, resetting playback time to zero and taking a volume
in [0, 1] from `Math.random()`; at or below the threshold the sound state
is completely unchanged. -/
theorem c5_audio_threshold (v r : ℚ) (snd : Script.SoundState)
    (h0 : 0 ≤ r) (h1 : r < 1) :
    (3/2 < v →
      Script.playHitSound v r snd
        = { volume := r, currentTime := 0, playCount := snd.playCount + 1 } ∧
      0 ≤ (Script.playHitSound v r snd).volume ∧
      (Script.playHitSound v r snd).volume ≤ 1) ∧
    (v ≤ 3/2 → Script.playHitSound v r snd = snd) := by
  constructor
  · intro hv
    refine ⟨by simp [Script.playHitSound, hv], ?_, ?_⟩ <;>
      simp [Script.playHitSound, hv]
    · exact h0
    · exact le_of_lt h1
  · intro hv
    simp [Script.playHitSound, not_lt.mpr hv]

/-- C5 witness: impact velocity 2.0 (with `Math.random()` returning 1/2)
restarts playback at volume 1/2; impact velocity 1.0 leaves the sound
state untouched. -/
theorem c5_audio_threshold_witness :
    ((0 : ℚ) ≤ 1/2 ∧ (1/2 : ℚ) < 1) ∧
    Script.playHitSound 2 (1/2) ⟨1, 7, 0⟩
      = { volume := 1/2, currentTime := 0, playCount := 1 } ∧
    Script.playHitSound 1 (1/2) ⟨1, 7, 0⟩ = ⟨1, 7, 0⟩ := by
  refine ⟨⟨by norm_num, by norm_num⟩, ?_, ?_⟩
  · exact ((c5_audio_threshold 2 (1/2) ⟨1, 7, 0⟩ (by norm_num) (by norm_num)).1
      (by norm_num)).1
  · exact (c5_audio_threshold 1 (1/2) ⟨1, 7, 0⟩ (by norm_num) (by norm_num)).2
      (by norm_num)

/-- C6: `reset` removes, for every TrackedPair of the registry, the
collide listener, the body from the world and the mesh from the scene,
then empties the registry: afterwards `objectsToUpdate` is empty, the
world contains no body of a previously tracked id, no previously tracked
body id keeps a listener, and no previously tracked mesh id remains in
the scene. -/
theorem c6_reset_clears (s : Script.SimState) :
    (Script.reset s).objectsToUpdate = [] ∧
    ∀ pr ∈ s.objectsToUpdate,
      (∀ b ∈ (Script.reset s).worldBodies, b.id ≠ pr.bodyId) ∧
      pr.bodyId ∉ (Script.reset s).collideListeners ∧
      (∀ m ∈ (Script.reset s).scene, m.id ≠ pr.meshId) := by
  refine ⟨rfl, fun pr hpr => ?_⟩
  obtain ⟨h1, h2, h3⟩ := foldl_removeOne_kills s.objectsToUpdate s pr hpr
  exact ⟨h1, fun hmem => h2 pr.bodyId hmem rfl, h3⟩

/-- C6 witness: resetting the state holding one spawned sphere (body id 2)
leaves an empty registry and a world without body 2. -/
theorem c6_reset_clears_witness :
    (Script.reset (Script.createSphere 1 ⟨0, 3, 0⟩ Script.initState).1).objectsToUpdate
      = [] ∧
    ∀ b ∈ (Script.reset (Script.createSphere 1 ⟨0, 3, 0⟩ Script.initState).1).worldBodies,
      b.id ≠ 2 := by
  have h := c6_reset_clears (Script.createSphere 1 ⟨0, 3, 0⟩ Script.initState).1
  refine ⟨h.1, ?_⟩
  have hm : (⟨1, 2⟩ : Script.TrackedPair)
      ∈ (Script.createSphere 1 ⟨0, 3, 0⟩ Script.initState).1.objectsToUpdate := by
    simp [Script.createSphere, Script.initState]
  exact (h.2 ⟨1, 2⟩ hm).1

/-- C7: the launch operation sets the ball's mass from the settings and its
velocity to `(adjustedSpeed * cos a, adjustedSpeed * sin a, 0)` with the
angle converted to radians and `adjustedSpeed = speed / sqrt(mass)`. -/
theorem c7_launch_velocity (set : Launch.Settings) (b : Launch.BallBody)
    (hm : 0 < set.mass) :
    (Launch.launch set b).velocity
      = ⟨set.velocity / Real.sqrt set.mass * Real.cos (set.angle * Real.pi / 180),
         set.velocity / Real.sqrt set.mass * Real.sin (set.angle * Real.pi / 180),
         0⟩ ∧
    (Launch.launch set b).mass = set.mass := by
  constructor
  · simp [Launch.launch, div_eq_mul_inv]
  · rfl

/-- C7 witness: launching with angle 0, velocity 10, mass 1 gives the ball
the initial velocity vector (10, 0, 0). -/
theorem c7_launch_velocity_witness :
    (0 : ℝ) < 1 ∧
    (Launch.launch ⟨0, 10, 1, 1, true⟩ Launch.initialBall).velocity
      = ⟨10, 0, 0⟩ := by
  refine ⟨one_pos, ?_⟩
  have h := (c7_launch_velocity ⟨0, 10, 1, 1, true⟩ Launch.initialBall one_pos).1
  rw [h]
  simp [Real.sqrt_one]

/-- C8: the air-resistance toggle is dead configuration — two runs of the
launch variant over the same event stream (frames, launches, resets) from
the same state, under settings differing only in `airResistance`, end in
identical states (ball position, orientation, velocity included) at every
step. -/
theorem c8_air_resistance_unobservable (set : Launch.Settings) (b : Bool)
    (evs : List Launch.Event) (st : Launch.State) :
    Launch.run { set with airResistance := b } evs st = Launch.run set evs st := by
  induction evs generalizing st with
  | nil => rfl
  | cons e evs ih =>
    simp only [Launch.run, List.foldl_cons]
    rw [applyEvent_ignores_air]
    exact ih (Launch.applyEvent set st e)

/-- C9: each of the three spawn operations appends exactly one TrackedPair
to the registry, and the spawned body and its mesh start at the identical
world position (the cylinder's documented height offset applies to both
equally). -/
theorem c9_one_pair_same_position (r w h d cr ch : ℚ) (p : Vec3 ℚ)
    (s : Script.SimState) :
    ((Script.createSphere r p s).1.objectsToUpdate
        = s.objectsToUpdate ++ [⟨s.nextId, s.nextId + 1⟩] ∧
      Script.lastBodyPos (Script.createSphere r p s).1
        = Script.lastMeshPos (Script.createSphere r p s).1) ∧
    ((Script.createBox w h d p s).1.objectsToUpdate
        = s.objectsToUpdate ++ [⟨s.nextId, s.nextId + 1⟩] ∧
      Script.lastBodyPos (Script.createBox w h d p s).1
        = Script.lastMeshPos (Script.createBox w h d p s).1) ∧
    ((Script.createCylinder cr ch p s).1.objectsToUpdate
        = s.objectsToUpdate ++ [⟨s.nextId, s.nextId + 1⟩] ∧
      Script.lastBodyPos (Script.createCylinder cr ch p s).1
        = Script.lastMeshPos (Script.createCylinder cr ch p s).1) := by
  refine ⟨⟨rfl, ?_⟩, ⟨rfl, ?_⟩, ⟨rfl, ?_⟩⟩ <;>
    simp [Script.lastBodyPos, Script.lastMeshPos, Script.createSphere,
      Script.createBox, Script.createCylinder, Script.sphereBodyOf,
      Script.sphereMeshOf, Script.boxBodyOf, Script.boxMeshOf,
      Script.cylinderBodyOf, Script.cylinderMeshOf, List.getLast?_concat]

/-- C10: `createCylinder` mutates the caller's position object, increasing
its `y` field by `(height * 0.5) / 2` before placing body and mesh, while
`createSphere` and `createBox` hand the caller's position back unchanged. -/
theorem c10_position_mutation (r w h d cr ch : ℚ) (p : Vec3 ℚ)
    (s : Script.SimState) :
    (Script.createSphere r p s).2 = p ∧
    (Script.createBox w h d p s).2 = p ∧
    (Script.createCylinder cr ch p s).2
      = { p with y := p.y + (ch * (1/2)) / 2 } := by
  exact ⟨rfl, rfl, rfl⟩
